import Mathlib

/-!
Shallow embedding of the volatility subcommand of the repository
(`src/cli/src/commands/volatility.rs`): the configuration record
(`VolatilityConfig`), the builder (`create_volatility_config`), the
validator (`validate_volatility_config`) and the adjustment calculator
(`calculate_volatility_adjustment`).

Modelling conventions:
- Rust `u64` values are `Nat`s; every arithmetic step that can overflow in
  the source is wrapped with an explicit `% 2 ^ 64`, matching the wrapping
  semantics of a release build (a debug build would panic at the same
  inputs, so claims that fail under wrapping fail there as well).
- Integer division by zero panics in Rust in every build profile; the
  calculator therefore returns `Option.none` on the paths where the source
  divides by `baseline_volatility = 0`.
- Rust `f64` amounts are modelled as exact rationals (`ℚ`).  The claims
  settled here only use order-theoretic facts (`max`/`min` are exact on
  IEEE doubles) and concrete values that are exactly representable, so the
  rational model agrees with the double computation on everything stated.
- `str::parse::<f64>` on the stored size strings is modelled by a plain
  decimal parser (optional sign, digits, optional fractional part); the
  exponent / `inf` / `NaN` forms accepted by Rust are not modelled and no
  claim depends on them.  An unparseable string parses to `none`, and the
  source's `unwrap_or(0.0)` is `Option.getD 0`.
-/

/-- The modulus of Rust `u64` arithmetic. -/
def U64MOD : Nat := 2 ^ 64

/-- Wrapping `u64` subtraction `a - b` (release-profile semantics of the
subtraction at `volatility.rs:157`). -/
def wrapSub (a b : Nat) : Nat :=
  (a % U64MOD + (U64MOD - b % U64MOD)) % U64MOD

/-- The persisted configuration record (`struct VolatilityConfig`,
`volatility.rs:54-64`): two `u64` volatility readings in basis points, the
two execution-size bounds stored as decimal strings in minor units, the two
derived `u64` thresholds, the conservative flag and the creation
timestamp. -/
structure VolatilityConfig where
  baseline_volatility : Nat
  current_volatility : Nat
  max_execution_size : String
  min_execution_size : String
  volatility_threshold : Nat
  conservative_mode : Bool
  emergency_threshold : Nat
  last_update_time : Nat

deriving instance DecidableEq for VolatilityConfig

/-- Value of a list of decimal digit characters, most significant first. -/
def digitsVal (cs : List Char) : Nat :=
  cs.foldl (fun acc c => acc * 10 + (c.toNat - 48)) 0

/-- Decimal parsing of a stored size string, modelling
`str::parse::<f64>`: an optional sign, an integer part and an optional
fractional part after a single dot, with at least one digit overall.
Values are kept exact in `ℚ` rather than rounded to a binary double. -/
def parseF64 (s : String) : Option ℚ :=
  let cs := s.data
  let sign : ℚ := if cs.head? = some (Char.ofNat 45) then -1 else 1
  let body :=
    if cs.head? = some (Char.ofNat 45) ∨ cs.head? = some (Char.ofNat 43) then
      cs.tail
    else cs
  let intPart := body.takeWhile Char.isDigit
  let rest := body.dropWhile Char.isDigit
  match rest with
  | [] => if intPart.isEmpty then none else some (sign * (digitsVal intPart : ℚ))
  | c :: frac =>
    if c = Char.ofNat 46 ∧ frac.all Char.isDigit ∧ ¬(intPart.isEmpty ∧ frac.isEmpty) then
      some (sign * ((digitsVal intPart : ℚ) + (digitsVal frac : ℚ) / (10 : ℚ) ^ frac.length))
    else none

/-- The source's `parse::<f64>().unwrap_or(0.0)` (`volatility.rs:150-151`,
`206-207`): an unparseable size string is treated as the value `0`. -/
def parseOrZero (s : String) : ℚ :=
  (parseF64 s).getD 0

/-- The Config Builder (`create_volatility_config`, `volatility.rs:94-111`),
restricted to the record it constructs (the file write and console output
are external I/O).  The two size strings are taken as already formatted:
in the source they are `format!("{:.18}", x * 1e18)` of the `f64` inputs,
a binary-double formatting step that is outside this embedding (see C7).
The derived thresholds are the source's `u64` products `baseline * 2` and
`baseline * 4`, which wrap at `2 ^ 64`. -/
def create_volatility_config (baseline_volatility current_volatility : Nat)
    (max_execution_size min_execution_size : String)
    (conservative_mode : Bool) (now : Nat) : VolatilityConfig :=
  { baseline_volatility := baseline_volatility
    current_volatility := current_volatility
    max_execution_size := max_execution_size
    min_execution_size := min_execution_size
    volatility_threshold := baseline_volatility * 2 % U64MOD
    conservative_mode := conservative_mode
    emergency_threshold := baseline_volatility * 4 % U64MOD
    last_update_time := now }

/-- Warning text of validation rule 1 (`volatility.rs:143`). -/
def warn_high_vol_msg : String :=
  "Current volatility is >3x baseline - consider conservative mode"

/-- Error text of validation rule 2 (`volatility.rs:147`). -/
def err_emergency_msg : String :=
  "Current volatility exceeds emergency threshold!"

/-- Error text of validation rule 3 (`volatility.rs:154`). -/
def err_size_msg : String :=
  "Max execution size must be > min execution size"

/-- Warning text of validation rule 4 (`volatility.rs:159`). -/
def warn_stale_msg : String :=
  "Configuration is more than 1 hour old"

/-- The warnings vector built by `validate_volatility_config`
(`volatility.rs:142-144` and `157-160`): rule 1 pushes on
`current_volatility > baseline_volatility * 3` (a wrapping `u64` product)
and rule 4 pushes on `now - last_update_time > 3600` (a wrapping `u64`
subtraction), in that order. -/
def validate_warnings (cfg : VolatilityConfig) (now : Nat) : List String :=
  (if cfg.baseline_volatility * 3 % U64MOD < cfg.current_volatility then
    [warn_high_vol_msg] else [])
    ++ (if 3600 < wrapSub now cfg.last_update_time then [warn_stale_msg] else [])

/-- The errors vector built by `validate_volatility_config`
(`volatility.rs:146-155`): rule 2 pushes on
`current_volatility > emergency_threshold` and rule 3 pushes on
`parsed(max) <= parsed(min)` with unparseable strings read as `0`, in that
order. -/
def validate_errors (cfg : VolatilityConfig) : List String :=
  (if cfg.emergency_threshold < cfg.current_volatility then
    [err_emergency_msg] else [])
    ++ (if parseOrZero cfg.max_execution_size ≤ parseOrZero cfg.min_execution_size then
      [err_size_msg] else [])

/-- Header line of the all-clear summary (`volatility.rs:164`). -/
def msg_valid : String := "Volatility configuration is valid!"

/-- Second line of the all-clear summary (`volatility.rs:165`). -/
def msg_summary_header : String := "Configuration summary:"

/-- Label of the baseline summary line (`volatility.rs:166`). -/
def lbl_baseline : String := "  Baseline: "

/-- Label of the current-volatility summary line (`volatility.rs:167`). -/
def lbl_current : String := "  Current: "

/-- Label of the threshold summary line (`volatility.rs:168`). -/
def lbl_threshold : String := "  Threshold: "

/-- Label of the emergency summary line (`volatility.rs:169`). -/
def lbl_emergency : String := "  Emergency: "

/-- Unit suffix of the summary lines. -/
def lbl_bps : String := "bps"

/-- The summary block printed when no warning and no error fired
(`volatility.rs:164-169`). -/
def valid_summary (cfg : VolatilityConfig) : List String :=
  [msg_valid, msg_summary_header,
   lbl_baseline ++ toString cfg.baseline_volatility ++ lbl_bps,
   lbl_current ++ toString cfg.current_volatility ++ lbl_bps,
   lbl_threshold ++ toString cfg.volatility_threshold ++ lbl_bps,
   lbl_emergency ++ toString cfg.emergency_threshold ++ lbl_bps]

/-- The Config Validator (`validate_volatility_config`,
`volatility.rs:129-183`), restricted to its observable outcome given an
already-loaded record: the list of lines it reports and whether it returns
`Ok` (`true`) or the validation-failed error (`false`).  The source checks
`errors.is_empty() && warnings.is_empty()` for the all-clear summary;
otherwise it prints every warning, then every error, and fails exactly
when the errors vector is non-empty (`volatility.rs:163-180`). -/
def validate_volatility_config (cfg : VolatilityConfig) (now : Nat) :
    List String × Bool :=
  let warnings := validate_warnings cfg now
  let errors := validate_errors cfg
  if errors.isEmpty && warnings.isEmpty then (valid_summary cfg, true)
  else (warnings ++ errors, errors.isEmpty)

/-- The three-regime adjustment factor of `calculate_volatility_adjustment`
(`volatility.rs:191-203`).  All arithmetic is `u64`: the scaled differences
wrap at `2 ^ 64` (release profile), and the divisions by
`baseline_volatility` panic when it is zero, modelled as `none`.  The
normal regime performs no division and cannot panic. -/
def adjustment_factor (cfg : VolatilityConfig) : Option Nat :=
  if cfg.current_volatility ≤ cfg.baseline_volatility then
    if cfg.baseline_volatility = 0 then none
    else
      some (100 + min
        ((cfg.baseline_volatility - cfg.current_volatility) * 50 % U64MOD
          / cfg.baseline_volatility) 50)
  else if cfg.volatility_threshold < cfg.current_volatility then
    if cfg.baseline_volatility = 0 then none
    else
      some (100 - min
        ((cfg.current_volatility - cfg.baseline_volatility) * 50 % U64MOD
          / cfg.baseline_volatility) 50)
  else some (if cfg.conservative_mode then 90 else 100)

/-- The quantities computed by `calculate_volatility_adjustment`
(`volatility.rs:205-209`) after the factor is known. -/
structure AdjustResult where
  adjustment_factor : Nat
  adjusted_amount : ℚ
  final_amount : ℚ
  min_allowed : ℚ
  max_allowed : ℚ

deriving instance DecidableEq for AdjustResult

/-- The Adjustment Calculator (`calculate_volatility_adjustment`,
`volatility.rs:185-232`), restricted to the values it computes from an
already-loaded record: `adjusted_amount = amount * factor / 100`, the two
bounds recovered from the size strings (`parse::<f64>().unwrap_or(0.0) /
1e18`), and `final_amount = adjusted_amount.max(min_eth).min(max_eth)`.
`none` is the division-by-zero panic inherited from
`adjustment_factor`. -/
def calculate_volatility_adjustment (amount : ℚ) (cfg : VolatilityConfig) :
    Option AdjustResult :=
  (adjustment_factor cfg).map fun (factor : Nat) =>
    let adjusted_amount := amount * (factor : ℚ) / 100
    let max_eth := parseOrZero cfg.max_execution_size / (10 : ℚ) ^ 18
    let min_eth := parseOrZero cfg.min_execution_size / (10 : ℚ) ^ 18
    let final_amount := min (max adjusted_amount min_eth) max_eth
    { adjustment_factor := factor
      adjusted_amount := adjusted_amount
      final_amount := final_amount
      min_allowed := min_eth
      max_allowed := max_eth }

/-- A JSON value, as far as the serialization of `VolatilityConfig` needs:
`serde_json` writes the `u64` fields as exact non-negative integers, the
size fields as strings and the flag as a boolean
(`#[derive(Serialize, Deserialize)]`, `volatility.rs:54`). -/
inductive Json where
  | jnum : Nat → Json
  | jstr : String → Json
  | jbool : Bool → Json
  | jobj : List (String × Json) → Json

/-- Read a JSON value as a `u64` field. -/
def Json.asNat? : Json → Option Nat
  | Json.jnum n => some n
  | _ => none

/-- Read a JSON value as a string field. -/
def Json.asStr? : Json → Option String
  | Json.jstr s => some s
  | _ => none

/-- Read a JSON value as a boolean field. -/
def Json.asBool? : Json → Option Bool
  | Json.jbool b => some b
  | _ => none

/-- JSON object key of `baseline_volatility`. -/
def key_baseline : String := "baseline_volatility"

/-- JSON object key of `current_volatility`. -/
def key_current : String := "current_volatility"

/-- JSON object key of `max_execution_size`. -/
def key_max_size : String := "max_execution_size"

/-- JSON object key of `min_execution_size`. -/
def key_min_size : String := "min_execution_size"

/-- JSON object key of `volatility_threshold`. -/
def key_threshold : String := "volatility_threshold"

/-- JSON object key of `conservative_mode`. -/
def key_conservative : String := "conservative_mode"

/-- JSON object key of `emergency_threshold`. -/
def key_emergency : String := "emergency_threshold"

/-- JSON object key of `last_update_time`. -/
def key_last_update : String := "last_update_time"

/-- Serialization of a configuration record (`serde_json::to_string_pretty`
on the derived `Serialize`, `volatility.rs:113`): an object with the eight
snake_case field names in declaration order. -/
def VolatilityConfig.toJson (c : VolatilityConfig) : Json :=
  Json.jobj
    [(key_baseline, Json.jnum c.baseline_volatility),
     (key_current, Json.jnum c.current_volatility),
     (key_max_size, Json.jstr c.max_execution_size),
     (key_min_size, Json.jstr c.min_execution_size),
     (key_threshold, Json.jnum c.volatility_threshold),
     (key_conservative, Json.jbool c.conservative_mode),
     (key_emergency, Json.jnum c.emergency_threshold),
     (key_last_update, Json.jnum c.last_update_time)]

/-- Deserialization of a configuration record (`serde_json::from_str` on
the derived `Deserialize`, `volatility.rs:135`, `187`): each of the eight
fields is looked up by name and must have the right shape; `none` models
the serde error. -/
def VolatilityConfig.fromJson? (j : Json) : Option VolatilityConfig :=
  match j with
  | Json.jobj fields => do
    let baseline ← (List.lookup key_baseline fields).bind Json.asNat?
    let current ← (List.lookup key_current fields).bind Json.asNat?
    let maxs ← (List.lookup key_max_size fields).bind Json.asStr?
    let mins ← (List.lookup key_min_size fields).bind Json.asStr?
    let threshold ← (List.lookup key_threshold fields).bind Json.asNat?
    let conservative ← (List.lookup key_conservative fields).bind Json.asBool?
    let emergency ← (List.lookup key_emergency fields).bind Json.asNat?
    let lastUpdate ← (List.lookup key_last_update fields).bind Json.asNat?
    pure
      { baseline_volatility := baseline
        current_volatility := current
        max_execution_size := maxs
        min_execution_size := mins
        volatility_threshold := threshold
        conservative_mode := conservative
        emergency_threshold := emergency
        last_update_time := lastUpdate }
  | _ => none

/-- The minor-unit string of 5 whole units (5 × 10 ^ 18). -/
def sizeFiveE18 : String := "5000000000000000000"

/-- The minor-unit string of 1 whole unit (10 ^ 18). -/
def sizeOneE18 : String := "1000000000000000000"

/-- The minor-unit string of 0.1 whole units (10 ^ 17). -/
def sizeOneE17 : String := "100000000000000000"

/-- A low-volatility record (current at half the baseline), as in the
spec's test vector for the boost formula. -/
def cfgLowVol : VolatilityConfig :=
  { baseline_volatility := 300, current_volatility := 150,
    max_execution_size := sizeFiveE18,
    min_execution_size := sizeOneE17,
    volatility_threshold := 600, conservative_mode := false,
    emergency_threshold := 1200, last_update_time := 0 }

/-- A high-volatility record (current 700 over baseline 300, threshold
600), as in the spec's test vector for the reduction clamp. -/
def cfgHighVol : VolatilityConfig :=
  { baseline_volatility := 300, current_volatility := 700,
    max_execution_size := sizeFiveE18,
    min_execution_size := sizeOneE17,
    volatility_threshold := 600, conservative_mode := false,
    emergency_threshold := 1200, last_update_time := 0 }

/-- A fresh, consistent record in the normal regime (the spec's end-to-end
example: baseline 300, current 350). -/
def cfgFresh : VolatilityConfig :=
  { baseline_volatility := 300, current_volatility := 350,
    max_execution_size := sizeFiveE18,
    min_execution_size := sizeOneE17,
    volatility_threshold := 600, conservative_mode := false,
    emergency_threshold := 1200, last_update_time := 0 }

/-- An inconsistent record whose minimum bound (5 units) exceeds its
maximum bound (1 unit); the builder never checks this, so such records
reach the calculator. -/
def cfgInverted : VolatilityConfig :=
  { baseline_volatility := 300, current_volatility := 300,
    max_execution_size := sizeOneE18,
    min_execution_size := sizeFiveE18,
    volatility_threshold := 600, conservative_mode := false,
    emergency_threshold := 1200, last_update_time := 0 }

/-- What the calculator produces on `cfgInverted` at amount 1: the final
amount (1) lies below the minimum bound (5). -/
def resInv : AdjustResult :=
  { adjustment_factor := 100, adjusted_amount := 1, final_amount := 1,
    min_allowed := 5, max_allowed := 1 }

/-- A consistent record (bounds 1 and 5 units) in the normal regime. -/
def cfgClamp : VolatilityConfig :=
  { baseline_volatility := 300, current_volatility := 300,
    max_execution_size := sizeFiveE18,
    min_execution_size := sizeOneE18,
    volatility_threshold := 600, conservative_mode := false,
    emergency_threshold := 1200, last_update_time := 0 }

/-- What the calculator produces on `cfgClamp` at amount 10: the adjusted
amount 10 is capped at the maximum bound 5. -/
def resClamp : AdjustResult :=
  { adjustment_factor := 100, adjusted_amount := 10, final_amount := 5,
    min_allowed := 1, max_allowed := 5 }

/-- A zero-baseline record sitting in the normal regime
(0 < current ≤ threshold), where the calculator performs no division. -/
def cfgZeroBase : VolatilityConfig :=
  { baseline_volatility := 0, current_volatility := 50,
    max_execution_size := sizeFiveE18,
    min_execution_size := sizeOneE17,
    volatility_threshold := 100, conservative_mode := false,
    emergency_threshold := 1200, last_update_time := 0 }

/-- The conservative variant of `cfgZeroBase`. -/
def cfgZeroBaseCons : VolatilityConfig :=
  { baseline_volatility := 0, current_volatility := 50,
    max_execution_size := sizeFiveE18,
    min_execution_size := sizeOneE17,
    volatility_threshold := 100, conservative_mode := true,
    emergency_threshold := 1200, last_update_time := 0 }

/-- A record with an extreme baseline (`2 ^ 63` basis points): in the low
regime the scaled difference `(baseline - current) * 50` wraps past
`2 ^ 64`. -/
def cfgOverflowLow : VolatilityConfig :=
  { baseline_volatility := 2 ^ 63, current_volatility := 0,
    max_execution_size := sizeFiveE18,
    min_execution_size := sizeOneE17,
    volatility_threshold := 0, conservative_mode := false,
    emergency_threshold := 0, last_update_time := 0 }

/-- A record on which the validator's product `baseline * 3` wraps past
`2 ^ 64` (the emergency threshold is kept above `current` so that only
rule 1 is at stake). -/
def cfgOverflowWarn : VolatilityConfig :=
  { baseline_volatility := 2 ^ 63, current_volatility := 2 ^ 63 + 1,
    max_execution_size := sizeFiveE18,
    min_execution_size := sizeOneE17,
    volatility_threshold := 0, conservative_mode := false,
    emergency_threshold := 2 ^ 64 - 1, last_update_time := 0 }

/-- A record satisfying the builder invariant (threshold = 2 × baseline)
deep in the high regime, on which `(current - baseline) * 50` wraps to 0. -/
def cfgHighWrap : VolatilityConfig :=
  { baseline_volatility := 1, current_volatility := 2 ^ 63 + 1,
    max_execution_size := sizeFiveE18,
    min_execution_size := sizeOneE17,
    volatility_threshold := 2, conservative_mode := false,
    emergency_threshold := 4, last_update_time := 0 }

/-- A record stamped in the future (`last_update_time = 10000`), validated
at `now = 0`. -/
def cfgFuture : VolatilityConfig :=
  { baseline_volatility := 300, current_volatility := 350,
    max_execution_size := sizeFiveE18,
    min_execution_size := sizeOneE17,
    volatility_threshold := 600, conservative_mode := false,
    emergency_threshold := 1200, last_update_time := 10000 }

/-- An empty size string (unparseable, hence read as 0 by the validator and
the calculator). -/
def noSize : String := ""

/-- Wrapping `u64` subtraction agrees with truncated subtraction when the
subtrahend does not exceed the minuend. -/
theorem wrapSub_eq_sub {a b : Nat} (hba : b ≤ a) (ha : a < U64MOD) :
    wrapSub a b = a - b := by
  have hb : b < U64MOD := lt_of_le_of_lt hba ha
  unfold wrapSub
  rw [Nat.mod_eq_of_lt ha, Nat.mod_eq_of_lt hb]
  have h1 : a + (U64MOD - b) = U64MOD + (a - b) := by omega
  rw [h1, Nat.add_mod_left]
  exact Nat.mod_eq_of_lt (by omega)

/-- The staleness message is reported exactly when the wrapping age
computation exceeds 3600. -/
theorem mem_warn_stale_iff (cfg : VolatilityConfig) (now : Nat) :
    warn_stale_msg ∈ validate_warnings cfg now ↔
      3600 < wrapSub now cfg.last_update_time := by
  have hne : warn_stale_msg ≠ warn_high_vol_msg := by decide
  by_cases h1 : cfg.baseline_volatility * 3 % U64MOD < cfg.current_volatility <;>
    by_cases h4 : 3600 < wrapSub now cfg.last_update_time <;>
      simp [validate_warnings, h1, h4, hne]

/-- The errors vector is empty exactly when neither error rule fired. -/
theorem validate_errors_eq_nil_iff (cfg : VolatilityConfig) :
    validate_errors cfg = [] ↔
      ¬(cfg.emergency_threshold < cfg.current_volatility ∨
        parseOrZero cfg.max_execution_size ≤ parseOrZero cfg.min_execution_size) := by
  by_cases h2 : cfg.emergency_threshold < cfg.current_volatility <;>
    by_cases h3 : parseOrZero cfg.max_execution_size ≤
      parseOrZero cfg.min_execution_size <;>
      simp [validate_errors, h2, h3]

/-- A list on which every character passes a predicate is its own
`takeWhile`. -/
theorem list_takeWhile_all (p : Char → Bool) (l : List Char)
    (hl : l.all p = true) : l.takeWhile p = l := by
  induction l with
  | nil => rfl
  | cons a t ih =>
    rw [List.all_cons, Bool.and_eq_true] at hl
    simp [List.takeWhile, hl.1, ih hl.2]

/-- A list on which every character passes a predicate has an empty
`dropWhile`. -/
theorem list_dropWhile_all (p : Char → Bool) (l : List Char)
    (hl : l.all p = true) : l.dropWhile p = [] := by
  induction l with
  | nil => rfl
  | cons a t ih =>
    rw [List.all_cons, Bool.and_eq_true] at hl
    simp [List.dropWhile, hl.1, ih hl.2]

/-- On a non-empty all-digit string the parser returns the value of its
digits. -/
theorem parseF64_digits (s : String) (hall : s.data.all Char.isDigit = true)
    (hne : s.data ≠ []) :
    parseF64 s = some ((digitsVal s.data : ℚ)) := by
  cases hcs : s.data with
  | nil => exact absurd hcs hne
  | cons c cs =>
    rw [hcs] at hall
    rw [List.all_cons, Bool.and_eq_true] at hall
    have hc45 : c ≠ Char.ofNat 45 := by
      intro h
      rw [h] at hall
      exact absurd hall.1 (by decide)
    have hc43 : c ≠ Char.ofNat 43 := by
      intro h
      rw [h] at hall
      exact absurd hall.1 (by decide)
    have hall2 : (c :: cs).all Char.isDigit = true := by
      rw [List.all_cons, Bool.and_eq_true]
      exact hall
    simp only [parseF64, hcs, List.head?_cons, Option.some.injEq]
    rw [if_neg hc45, if_neg (by simp [hc45, hc43]),
      list_takeWhile_all Char.isDigit (c :: cs) hall2,
      list_dropWhile_all Char.isDigit (c :: cs) hall2]
    simp

/-- The 5-unit minor-unit string parses to 5 × 10 ^ 18. -/
theorem parse_sizeFiveE18 : parseOrZero sizeFiveE18 = 5000000000000000000 := by
  rw [parseOrZero, parseF64_digits sizeFiveE18 (by decide) (by decide),
    Option.getD_some]
  have hd : digitsVal sizeFiveE18.data = 5000000000000000000 := by decide
  rw [hd]
  norm_num

/-- The 1-unit minor-unit string parses to 10 ^ 18. -/
theorem parse_sizeOneE18 : parseOrZero sizeOneE18 = 1000000000000000000 := by
  rw [parseOrZero, parseF64_digits sizeOneE18 (by decide) (by decide),
    Option.getD_some]
  have hd : digitsVal sizeOneE18.data = 1000000000000000000 := by decide
  rw [hd]
  norm_num

/-- The 0.1-unit minor-unit string parses to 10 ^ 17. -/
theorem parse_sizeOneE17 : parseOrZero sizeOneE17 = 100000000000000000 := by
  rw [parseOrZero, parseF64_digits sizeOneE17 (by decide) (by decide),
    Option.getD_some]
  have hd : digitsVal sizeOneE17.data = 100000000000000000 := by decide
  rw [hd]
  norm_num

/-- On the fresh record the size rule does not fire (maximum 5 units is
above minimum 0.1 units). -/
theorem rule3_cfgFresh :
    ¬(parseOrZero cfgFresh.max_execution_size ≤
      parseOrZero cfgFresh.min_execution_size) := by
  show ¬(parseOrZero sizeFiveE18 ≤ parseOrZero sizeOneE17)
  rw [parse_sizeFiveE18, parse_sizeOneE17]
  norm_num

/-- On the inverted record the size rule fires (maximum 1 unit is below
minimum 5 units). -/
theorem rule3_cfgInverted :
    parseOrZero cfgInverted.max_execution_size ≤
      parseOrZero cfgInverted.min_execution_size := by
  show parseOrZero sizeOneE18 ≤ parseOrZero sizeFiveE18
  rw [parse_sizeOneE18, parse_sizeFiveE18]
  norm_num

/-- The calculator's full result on the inverted record at amount 1. -/
theorem calc_cfgInverted :
    calculate_volatility_adjustment 1 cfgInverted = some resInv := by
  have hf : adjustment_factor cfgInverted = some 100 := by decide
  have h1 : parseOrZero cfgInverted.max_execution_size = (1000000000000000000 : ℚ) :=
    parse_sizeOneE18
  have h2 : parseOrZero cfgInverted.min_execution_size = (5000000000000000000 : ℚ) :=
    parse_sizeFiveE18
  simp only [calculate_volatility_adjustment, hf, Option.map_some', h1, h2]
  simp only [resInv, Option.some.injEq, AdjustResult.mk.injEq]
  norm_num [min_def, max_def]

/-- The calculator's full result on the consistent record at amount 10. -/
theorem calc_cfgClamp :
    calculate_volatility_adjustment 10 cfgClamp = some resClamp := by
  have hf : adjustment_factor cfgClamp = some 100 := by decide
  have h1 : parseOrZero cfgClamp.max_execution_size = (5000000000000000000 : ℚ) :=
    parse_sizeFiveE18
  have h2 : parseOrZero cfgClamp.min_execution_size = (1000000000000000000 : ℚ) :=
    parse_sizeOneE18
  simp only [calculate_volatility_adjustment, hf, Option.map_some', h1, h2]
  simp only [resClamp, Option.some.injEq, AdjustResult.mk.injEq]
  norm_num [min_def, max_def]

/-- C1 (counterexample): at `baseline_volatility = 2 ^ 63` and
`current_volatility = 0` the low-volatility regime applies, but the `u64`
product `(baseline - current) * 50` wraps to 0, so the computed factor is
100 while the claimed formula `100 + min(floor((b - c) * 50 / b), 50)`
gives 150. -/
theorem c1_factor_overflow_cex :
    0 < cfgOverflowLow.baseline_volatility ∧
    cfgOverflowLow.current_volatility ≤ cfgOverflowLow.baseline_volatility ∧
    adjustment_factor cfgOverflowLow ≠ some
      (100 + min ((cfgOverflowLow.baseline_volatility -
        cfgOverflowLow.current_volatility) * 50
        / cfgOverflowLow.baseline_volatility) 50) := by decide

/-- C1 (amended): for every configuration with positive baseline whose
scaled differences `(baseline - current) * 50` and
`(current - baseline) * 50` stay below `2 ^ 64`, the adjustment factor is
computed by the three regimes in precedence order: low volatility
(`current <= baseline`) gives `100 + min(floor((b - c) * 50 / b), 50)`,
high volatility (`current > volatility_threshold`) gives
`100 - min(floor((c - b) * 50 / b), 50)`, and otherwise the factor is 90
in conservative mode and 100 otherwise, with integer (floor) division
throughout. -/
theorem c1_adjustment_factor_regimes (cfg : VolatilityConfig)
    (hb : 0 < cfg.baseline_volatility)
    (hlow : (cfg.baseline_volatility - cfg.current_volatility) * 50 < U64MOD)
    (hhigh : (cfg.current_volatility - cfg.baseline_volatility) * 50 < U64MOD) :
    adjustment_factor cfg = some
      (if cfg.current_volatility ≤ cfg.baseline_volatility then
        100 + min ((cfg.baseline_volatility - cfg.current_volatility) * 50
          / cfg.baseline_volatility) 50
      else if cfg.volatility_threshold < cfg.current_volatility then
        100 - min ((cfg.current_volatility - cfg.baseline_volatility) * 50
          / cfg.baseline_volatility) 50
      else if cfg.conservative_mode then 90 else 100) := by
  have hb0 : cfg.baseline_volatility ≠ 0 := Nat.pos_iff_ne_zero.mp hb
  unfold adjustment_factor
  rw [Nat.mod_eq_of_lt hlow, Nat.mod_eq_of_lt hhigh, if_neg hb0, if_neg hb0]
  split_ifs <;> rfl

/-- C1 (witness): the spec's own vector — baseline 300, current 150 —
yields boost 25 and factor 125. -/
theorem c1_adjustment_factor_regimes_witness :
    adjustment_factor cfgLowVol = some 125 := by
  have h := c1_adjustment_factor_regimes cfgLowVol (by decide) (by decide) (by decide)
  rw [h]; decide

/-- C2 (counterexample): at `baseline_volatility = 2 ^ 63` the validator's
product `baseline * 3` wraps to `2 ^ 63`, so the rule-1 warning fires for
`current_volatility = 2 ^ 63 + 1` even though current does not exceed
three times the baseline. -/
theorem c2_rule1_overflow_cex :
    cfgOverflowWarn.current_volatility ≤ 3 * cfgOverflowWarn.baseline_volatility ∧
    warn_high_vol_msg ∈ validate_warnings cfgOverflowWarn 0 := by decide

/-- C2 (amended): provided `baseline_volatility * 3 < 2 ^ 64` and
`last_update_time <= now < 2 ^ 64`, the validator evaluates its four rules
independently and in order: the warnings vector holds the high-volatility
warning exactly when `current > 3 * baseline` followed by the staleness
warning exactly when `now - last_update_time > 3600`, and the errors
vector holds the emergency error exactly when
`current > emergency_threshold` followed by the size error exactly when
`parsed(max) <= parsed(min)` with unparseable sizes read as 0. -/
theorem c2_validate_rules (cfg : VolatilityConfig) (now : Nat)
    (h3 : cfg.baseline_volatility * 3 < U64MOD)
    (hnow : now < U64MOD) (hle : cfg.last_update_time ≤ now) :
    validate_warnings cfg now =
      ((if 3 * cfg.baseline_volatility < cfg.current_volatility then
          [warn_high_vol_msg] else [])
        ++ (if 3600 < now - cfg.last_update_time then [warn_stale_msg] else []))
    ∧ validate_errors cfg =
      ((if cfg.emergency_threshold < cfg.current_volatility then
          [err_emergency_msg] else [])
        ++ (if parseOrZero cfg.max_execution_size ≤
              parseOrZero cfg.min_execution_size then
          [err_size_msg] else [])) := by
  constructor
  · unfold validate_warnings
    rw [Nat.mod_eq_of_lt h3, wrapSub_eq_sub hle hnow,
      Nat.mul_comm cfg.baseline_volatility 3]
  · rfl

/-- C2 (witness): the fresh consistent record raises no warning and no
error. -/
theorem c2_validate_rules_witness :
    validate_warnings cfgFresh 100 = [] ∧ validate_errors cfgFresh = [] := by
  have h := c2_validate_rules cfgFresh 100 (by decide) (by decide) (by decide)
  refine ⟨?_, ?_⟩
  · rw [h.1]; decide
  · rw [h.2,
      if_neg (by decide :
        ¬(cfgFresh.emergency_threshold < cfgFresh.current_volatility)),
      if_neg rule3_cfgFresh]
    rfl

/-- C3 (counterexample): on a record whose minimum bound (5) exceeds its
maximum bound (1), the calculator returns a final amount (1) that lies
below the minimum bound, so the final amount is not always inside
`[min_allowed, max_allowed]`. -/
theorem c3_clamp_out_of_range_cex :
    calculate_volatility_adjustment 1 cfgInverted = some resInv ∧
    ¬(resInv.min_allowed ≤ resInv.final_amount ∧
      resInv.final_amount ≤ resInv.max_allowed) := by
  refine ⟨calc_cfgInverted, ?_⟩
  norm_num [resInv]

/-- C3 (amended): for every configuration and positive amount the
calculator returns
`final_amount = min (max adjusted_amount min_allowed) max_allowed` (the
clamp of the adjusted amount to the two bounds), and whenever
`min_allowed <= max_allowed` the final amount lies inside
`[min_allowed, max_allowed]` inclusive; for an inverted record
(`min_allowed > max_allowed`) the containment fails. -/
theorem c3_final_amount_clamped (amount : ℚ) (cfg : VolatilityConfig)
    (res : AdjustResult) (hamt : 0 < amount)
    (h : calculate_volatility_adjustment amount cfg = some res) :
    res.final_amount = min (max res.adjusted_amount res.min_allowed) res.max_allowed ∧
    (res.min_allowed ≤ res.max_allowed →
      res.min_allowed ≤ res.final_amount ∧ res.final_amount ≤ res.max_allowed) := by
  rcases hf : adjustment_factor cfg with _ | f
  · simp only [calculate_volatility_adjustment, hf, Option.map_none'] at h
    cases h
  · simp only [calculate_volatility_adjustment, hf, Option.map_some',
      Option.some.injEq] at h
    subst h
    refine ⟨rfl, fun hmm => ⟨le_min (le_max_right _ _) hmm, min_le_right _ _⟩⟩

/-- C3 (witness): on a consistent record with bounds 1 and 5, amount 10 is
adjusted to 10 and clamped to 5, which lies inside the bounds. -/
theorem c3_final_amount_clamped_witness :
    resClamp.min_allowed ≤ resClamp.final_amount ∧
    resClamp.final_amount ≤ resClamp.max_allowed :=
  (c3_final_amount_clamped 10 cfgClamp resClamp (by norm_num) calc_cfgClamp).2
    (by norm_num [resClamp])

/-- C4 (counterexample): at `baseline_volatility = 2 ^ 63` the builder's
`u64` product `baseline * 2` wraps to 0, so the stored
`volatility_threshold` is not `2 * baseline`. -/
theorem c4_threshold_overflow_cex :
    (create_volatility_config (2 ^ 63) 0 noSize noSize false 0).volatility_threshold ≠
      2 * 2 ^ 63 := by decide

/-- C4 (amended): for every choice of build inputs with
`baseline_volatility * 4 < 2 ^ 64`, the record produced by the builder
satisfies `volatility_threshold = 2 * baseline_volatility` and
`emergency_threshold = 4 * baseline_volatility`. -/
theorem c4_builder_thresholds (b c : Nat) (mx mn : String) (cm : Bool)
    (now : Nat) (h : b * 4 < U64MOD) :
    (create_volatility_config b c mx mn cm now).volatility_threshold = 2 * b ∧
    (create_volatility_config b c mx mn cm now).emergency_threshold = 4 * b := by
  have h2 : b * 2 < U64MOD := by omega
  constructor
  · show b * 2 % U64MOD = 2 * b
    rw [Nat.mod_eq_of_lt h2, Nat.mul_comm]
  · show b * 4 % U64MOD = 4 * b
    rw [Nat.mod_eq_of_lt h, Nat.mul_comm]

/-- C4 (witness): building with baseline 300 stores threshold 600 and
emergency threshold 1200. -/
theorem c4_builder_thresholds_witness :
    (create_volatility_config 300 350 noSize noSize false 0).volatility_threshold = 600 ∧
    (create_volatility_config 300 350 noSize noSize false 0).emergency_threshold = 1200 := by
  have h := c4_builder_thresholds 300 350 noSize noSize false 0 (by decide)
  exact ⟨h.1.trans (by norm_num), h.2.trans (by norm_num)⟩

/-- C5: validation fails exactly when one of the two error rules fired
(warnings alone leave it successful), and when errors are present the
reported lines are all fired warnings followed by all fired errors, with
no early exit. -/
theorem c5_validate_result_semantics (cfg : VolatilityConfig) (now : Nat) :
    ((validate_volatility_config cfg now).2 = false ↔
      (cfg.emergency_threshold < cfg.current_volatility ∨
        parseOrZero cfg.max_execution_size ≤ parseOrZero cfg.min_execution_size))
    ∧ (validate_errors cfg ≠ [] →
        (validate_volatility_config cfg now).1 =
          validate_warnings cfg now ++ validate_errors cfg) := by
  have hsnd : (validate_volatility_config cfg now).2 =
      (validate_errors cfg).isEmpty := by
    unfold validate_volatility_config
    cases hE : (validate_errors cfg).isEmpty <;>
      cases hW : (validate_warnings cfg now).isEmpty <;> simp [hE, hW]
  constructor
  · rw [hsnd]
    constructor
    · intro hfalse
      by_contra hcon
      have hnil : validate_errors cfg = [] :=
        (validate_errors_eq_nil_iff cfg).mpr hcon
      rw [hnil] at hfalse
      cases hfalse
    · intro hor
      have hne : validate_errors cfg ≠ [] :=
        fun hnil => ((validate_errors_eq_nil_iff cfg).mp hnil) hor
      cases hE : validate_errors cfg with
      | nil => exact absurd hE hne
      | cons a l => rfl
  · intro hne
    have hE : (validate_errors cfg).isEmpty = false := by
      cases hE2 : validate_errors cfg with
      | nil => exact absurd hE2 hne
      | cons a l => rfl
    unfold validate_volatility_config
    simp [hE]

/-- C5 (witness): a record whose maximum bound is below its minimum bound
fails validation. -/
theorem c5_validate_result_semantics_witness :
    (validate_volatility_config cfgInverted 0).2 = false :=
  (c5_validate_result_semantics cfgInverted 0).1.mpr (Or.inr rule3_cfgInverted)

/-- C6 (counterexample): a configuration with `baseline_volatility = 0`
whose current volatility sits in the normal regime is not rejected: the
calculator silently computes factor 100. -/
theorem c6_zero_baseline_cex :
    cfgZeroBase.baseline_volatility = 0 ∧
    adjustment_factor cfgZeroBase = some 100 := by decide

/-- C6 (amended): the calculator does not reject a zero-baseline
configuration; in the low regime (`current = 0`) and the high regime
(`current > volatility_threshold`) the division by zero panics, and in
the normal regime it silently computes factor 90 (conservative) or 100 —
rejecting a zero baseline is left to callers. -/
theorem c6_zero_baseline_behavior (cfg : VolatilityConfig)
    (h0 : cfg.baseline_volatility = 0) :
    adjustment_factor cfg =
      (if cfg.current_volatility = 0 then none
       else if cfg.volatility_threshold < cfg.current_volatility then none
       else some (if cfg.conservative_mode then 90 else 100)) := by
  unfold adjustment_factor
  rw [h0]
  simp [Nat.le_zero]

/-- C6 (witness): a zero-baseline conservative record in the normal regime
silently yields factor 90. -/
theorem c6_zero_baseline_behavior_witness :
    adjustment_factor cfgZeroBaseCons = some 90 := by
  have h := c6_zero_baseline_behavior cfgZeroBaseCons (by decide)
  rw [h]; decide

/-- Deserializing the serialization of any configuration record restores
the record (derived serde round-trip on named fields). -/
theorem fromJson_toJson (c : VolatilityConfig) :
    VolatilityConfig.fromJson? (VolatilityConfig.toJson c) = some c := rfl

/-- C8: for every record produced by the builder with positive baseline,
serializing to JSON and deserializing yields a record equal to the
original in all eight fields. -/
theorem c8_json_roundtrip (b c : Nat) (mx mn : String) (cm : Bool)
    (now : Nat) (hb : 0 < b) :
    VolatilityConfig.fromJson?
        (VolatilityConfig.toJson (create_volatility_config b c mx mn cm now)) =
      some (create_volatility_config b c mx mn cm now) :=
  fromJson_toJson _

/-- C8 (witness): the round-trip at the spec's example build inputs. -/
theorem c8_json_roundtrip_witness :
    VolatilityConfig.fromJson?
        (VolatilityConfig.toJson
          (create_volatility_config 300 350 noSize noSize false 1700000000)) =
      some (create_volatility_config 300 350 noSize noSize false 1700000000) :=
  c8_json_roundtrip 300 350 noSize noSize false 1700000000 (by decide)

/-- C9: the staleness rule computes the age by unsigned subtraction, so
under the precondition `last_update_time <= now` the warning fires exactly
when the age exceeds 3600 seconds, and for a record stamped in the future
the subtraction underflows: the warning branch is reached even though the
true age is not positive. -/
theorem c9_staleness_underflow :
    (∀ (cfg : VolatilityConfig) (now : Nat), now < U64MOD →
      cfg.last_update_time ≤ now →
      (warn_stale_msg ∈ validate_warnings cfg now ↔
        3600 < now - cfg.last_update_time))
    ∧ (∃ (cfg : VolatilityConfig) (now : Nat), now < cfg.last_update_time ∧
        warn_stale_msg ∈ validate_warnings cfg now) := by
  constructor
  · intro cfg now hnow hle
    rw [mem_warn_stale_iff, wrapSub_eq_sub hle hnow]
  · exact ⟨cfgFuture, 0, by decide, by decide⟩

/-- C9 (witness): a record stamped at time 0 and validated at time 10000
raises the staleness warning. -/
theorem c9_staleness_underflow_witness :
    warn_stale_msg ∈ validate_warnings cfgFresh 10000 :=
  (c9_staleness_underflow.1 cfgFresh 10000 (by decide) (by decide)).mpr
    (by decide)

/-- C10 (counterexample): a record obeying the builder invariant
(`threshold = 2 * baseline` with baseline 1) and deep in the high regime
(`current = 2 ^ 63 + 1`) makes `(current - baseline) * 50` wrap to 0, so
the factor is 100, not 50. -/
theorem c10_high_regime_overflow_cex :
    0 < cfgHighWrap.baseline_volatility ∧
    cfgHighWrap.volatility_threshold = 2 * cfgHighWrap.baseline_volatility ∧
    cfgHighWrap.volatility_threshold < cfgHighWrap.current_volatility ∧
    adjustment_factor cfgHighWrap ≠ some 50 := by decide

/-- C10 (amended): for every configuration satisfying the builder
invariant `volatility_threshold = 2 * baseline_volatility` with positive
baseline, whenever the high-volatility regime applies and the scaled
difference `(current - baseline) * 50` does not wrap past `2 ^ 64`, the
reduction reaches the clamp and the adjustment factor is exactly 50. -/
theorem c10_high_regime_factor_50 (cfg : VolatilityConfig)
    (hb : 0 < cfg.baseline_volatility)
    (hinv : cfg.volatility_threshold = 2 * cfg.baseline_volatility)
    (hhi : cfg.volatility_threshold < cfg.current_volatility)
    (hov : (cfg.current_volatility - cfg.baseline_volatility) * 50 < U64MOD) :
    adjustment_factor cfg = some 50 := by
  have hb0 : cfg.baseline_volatility ≠ 0 := Nat.pos_iff_ne_zero.mp hb
  have hcb : ¬(cfg.current_volatility ≤ cfg.baseline_volatility) := by omega
  unfold adjustment_factor
  rw [if_neg hcb, if_pos hhi, if_neg hb0, Nat.mod_eq_of_lt hov]
  have h50 : 50 ≤ (cfg.current_volatility - cfg.baseline_volatility) * 50
      / cfg.baseline_volatility := by
    rw [Nat.le_div_iff_mul_le hb]
    omega
  rw [min_eq_right h50]

/-- C10 (witness): the spec's vector — baseline 300, current 700,
threshold 600 — clamps the reduction at 50 and yields factor 50. -/
theorem c10_high_regime_factor_50_witness :
    adjustment_factor cfgHighVol = some 50 :=
  c10_high_regime_factor_50 cfgHighVol (by decide) (by decide) (by decide)
    (by decide)
